import Mathlib

set_option maxHeartbeats 1000000

/-!
Verification of the TVDB-to-MyAnimeList identity-resolution scripts.

The Python sources are shallowly embedded: pure text manipulation is
modelled on `List Char` / `String`, the Jikan HTTP gateway is modelled as
explicit oracle records passed to each function, and Python truthiness of
`None` / `0` / `""` is modelled explicitly on `Option` values.
-/

namespace TvdbMal

/-! ### Python character and string primitives

Python `str.strip()` removes the six ASCII whitespace characters;
`str.lower()` is modelled on the ASCII range (the inputs of interest are
ASCII titles).  Characters are compared through their codepoints. -/

/-- Codepoint test for the characters Python `str.strip()` removes:
space, tab, newline, carriage return, vertical tab, form feed. -/
def pyIsSpace (c : Char) : Bool :=
  c.toNat == 32 || c.toNat == 9 || c.toNat == 10 || c.toNat == 13 ||
    c.toNat == 11 || c.toNat == 12

/-- The three characters removed by `NORMALIZE_REGEX = re.compile(r"[:.!]")`
in `mal_mapper.py`: colon (58), period (46), exclamation mark (33). -/
def isPunct (c : Char) : Bool :=
  c.toNat == 58 || c.toNat == 46 || c.toNat == 33

/-- ASCII lower-casing of one character, as done by Python `str.lower()`
on ASCII input: codepoints 65..90 are shifted by 32. -/
def lowerChar (c : Char) : Char :=
  if 65 ≤ c.toNat ∧ c.toNat ≤ 90 then Char.ofNat (c.toNat + 32) else c

/-- `str.lower()` on a character list. -/
def pyLower (l : List Char) : List Char := l.map lowerChar

/-- Remove the longest suffix of characters satisfying `p`. -/
def dropRightWhile (p : Char → Bool) (l : List Char) : List Char :=
  (l.reverse.dropWhile p).reverse

/-- Python `str.strip()`: remove leading and trailing whitespace. -/
def pyStrip (l : List Char) : List Char :=
  dropRightWhile pyIsSpace (l.dropWhile pyIsSpace)

/-- `NORMALIZE_REGEX.sub("", name)`: delete every `:`, `.`, `!`. -/
def stripPunct (l : List Char) : List Char := l.filter (fun c => !isPunct c)

/-- Embedding of `normalize_text` from `mal_mapper.py` (lines 61-66):
`if not name: return ""`, then delete `[:.!]`, then `strip().lower()`. -/
def normalize_text (s : String) : String :=
  if s = "" then "" else String.mk (pyLower (pyStrip (stripPunct s.data)))

/-! ### The full normalization pipeline of
`debug/specific-anime-scrape test.py` (lines 163-174)

Each `re.sub` is modelled by a scanner that walks the string left to
right, replacing non-overlapping leftmost matches, exactly as Python
`re.sub` does on these particular patterns (none of which needs
backtracking, since every quantified character class excludes the
character that must follow it).  The scanners recurse on a fuel counter;
every match consumes at least one character, so fuel equal to the length
of the input makes the scanner process the whole string. -/

namespace Scrape

/-- ASCII `\w`: letters, digits, underscore. -/
def isWordChar (c : Char) : Bool := c.isAlpha || c.isDigit || c == '_'

/-- The character class `(\w|[0-9]|\s)` used by `ALT_NAME_REGEX` and
`NATIVE_NAME_REGEX`. -/
def altBody (c : Char) : Bool := isWordChar c || pyIsSpace c

/-- The character class `(\w|[0-9]|-)` used by
`JELLYFIN_FOLDER_FORMAT_REGEX`. -/
def jfBody (c : Char) : Bool := isWordChar c || c == '-'

/-- Try `SEASON_REGEX = (\s|\.)S[0-9]{1,2}` at the head of the list;
on success return the remainder after the (greedy) match. -/
def matchSeason : List Char → Option (List Char)
  | c1 :: 'S' :: c3 :: rest =>
    if (pyIsSpace c1 || c1 == '.') && c3.isDigit then
      match rest with
      | d :: rest2 => if d.isDigit then some rest2 else some (d :: rest2)
      | [] => some []
    else none
  | _ => none

/-- Try `ALT_NAME_REGEX = \s*~(\w|[0-9]|\s)+~` at the head of the list. -/
def matchAlt (l : List Char) : Option (List Char) :=
  match l.dropWhile pyIsSpace with
  | '~' :: rest =>
    match rest.dropWhile altBody with
    | '~' :: r => if rest.takeWhile altBody = [] then none else some r
    | _ => none
  | _ => none

/-- Try `NATIVE_NAME_REGEX = \((\w|[0-9]|\s)+\)$` at the head of the
list; the `$` anchor demands that the match ends the string, so the
remainder is empty. -/
def matchNative (l : List Char) : Option (List Char) :=
  match l with
  | '(' :: rest =>
    match rest.dropWhile altBody with
    | [')'] => if rest.takeWhile altBody = [] then none else some []
    | _ => none
  | _ => none

/-- Try `JELLYFIN_FOLDER_FORMAT_REGEX = \([0-9]{4}\)\s*\[(\w|[0-9]|-)+\]$`
at the head of the list. -/
def matchJellyfin : List Char → Option (List Char)
  | '(' :: d1 :: d2 :: d3 :: d4 :: ')' :: rest =>
    if d1.isDigit && d2.isDigit && d3.isDigit && d4.isDigit then
      match rest.dropWhile pyIsSpace with
      | '[' :: r2 =>
        match r2.dropWhile jfBody with
        | [']'] => if r2.takeWhile jfBody = [] then none else some []
        | _ => none
      | _ => none
    else none
  | _ => none

/-- `re.sub(pattern, "", s)` for a deletion pattern given by matcher `m`. -/
def reSubDel (m : List Char → Option (List Char)) : Nat → List Char → List Char
  | _, [] => []
  | 0, l => l
  | fuel + 1, c :: cs =>
    match m (c :: cs) with
    | some rest => reSubDel m fuel rest
    | none => c :: reSubDel m fuel cs

/-- Python `\s?` after the ampersand: drop at most one whitespace char. -/
def dropOptWs : List Char → List Char
  | [] => []
  | x :: xs => if pyIsSpace x then xs else x :: xs

/-- Try `AMPERSAND_REGEX = \s?&\s?` at the head of the list. -/
def matchAmp : List Char → Option (List Char)
  | [] => none
  | c :: cs =>
    if pyIsSpace c then
      match cs with
      | '&' :: cs2 => some (dropOptWs cs2)
      | _ => none
    else if c == '&' then some (dropOptWs cs) else none

/-- `AMPERSAND_REGEX.sub(" and ", s)`. -/
def ampSub : Nat → List Char → List Char
  | _, [] => []
  | 0, l => l
  | fuel + 1, c :: cs =>
    match matchAmp (c :: cs) with
    | some rest => ' ' :: 'a' :: 'n' :: 'd' :: ' ' :: ampSub fuel rest
    | none => c :: ampSub fuel cs

/-- `HASH_REGEX.sub(" ", s)`: replace every `#` with a space. -/
def hashSub (l : List Char) : List Char :=
  l.map (fun c => if c == '#' then ' ' else c)

/-- Embedding of `normalize_text` from
`debug/specific-anime-scrape test.py`: the full ordered pipeline
(season markers, tilde decorations, native-name parentheticals,
ampersand, hash marks, folder decorations, punctuation, strip+lower). -/
def normalize_text (s : String) : String :=
  if s = "" then ""
  else
    let l1 := reSubDel matchSeason s.data.length s.data
    let l2 := reSubDel matchAlt l1.length l1
    let l3 := reSubDel matchNative l2.length l2
    let l4 := ampSub l3.length l3
    let l5 := hashSub l4
    let l6 := reSubDel matchJellyfin l5.length l5
    String.mk (pyLower (pyStrip (stripPunct l6)))

end Scrape
/-! ### `rapidfuzz.fuzz.ratio`

`fuzz.ratio` is the normalized Indel similarity on a 0-100 scale:
`ratio(a, b) = 100 * (1 - dist/(|a|+|b|))` where the Indel distance is
`|a| + |b| - 2 * lcs(a, b)`, hence `ratio(a, b) = 200 * lcs(a, b) / (|a|+|b|)`
(and 100 when both strings are empty).  The longest-common-subsequence
length is computed with a fuel counter; every recursive call shortens the
combined length by at least one, so fuel `|a| + |b|` always suffices and
the wrapper supplies it. -/

def lcsLenF : Nat → List Char → List Char → Nat
  | _, [], _ => 0
  | _, _, [] => 0
  | 0, _, _ => 0
  | fuel + 1, a :: as, b :: bs =>
    if a = b then lcsLenF fuel as bs + 1
    else max (lcsLenF fuel (a :: as) bs) (lcsLenF fuel as (b :: bs))

def lcsLen (a b : List Char) : Nat := lcsLenF (a.length + b.length) a b

/-- An exact similarity score `num / den` on the 0-100 scale.  Python
compares IEEE doubles; for the fractions produced by `fuzz.ratio` the
comparisons against thresholds and against each other are exact, so we
represent the score as an exact fraction and compare by
cross-multiplication. -/
structure Sim where
  num : Nat
  den : Nat
  den_pos : 0 < den

/-- The rational value of a score (used to state theorems). -/
def Sim.toRat (s : Sim) : ℚ := (s.num : ℚ) / (s.den : ℚ)

/-- `t <= s` for a natural threshold `t` (e.g. `similarity >= 85`). -/
def Sim.geNat (s : Sim) (t : Nat) : Bool := t * s.den ≤ s.num

/-- `a < b` on scores (e.g. `similarity > best_match[1]`). -/
def Sim.ltSim (a b : Sim) : Bool := a.num * b.den < b.num * a.den

/-- `rapidfuzz.fuzz.ratio` as an exact score:
`200 * lcs(a, b) / (|a| + |b|)`, and 100 on two empty strings. -/
def fuzz_ratio (a b : String) : Sim :=
  if h : a.data.length + b.data.length = 0 then ⟨100, 1, by omega⟩
  else ⟨200 * lcsLen a.data b.data, a.data.length + b.data.length, by omega⟩

/-! ### `get_best_mal_id` (`mal_mapper.py` lines 73-118)

The Jikan search call is abstracted: the function receives the list of
search results (each a MAL id with its title list) that
`safe_jikan.search_anime(...)` produced, and performs the pure
best-match computation of the source on them. -/

structure SearchAnime where
  mal_id : Nat
  titles : List String

/-- `str.lower()` on a whole string. -/
def pyLowerStr (s : String) : String := String.mk (pyLower s.data)

/-- `str.strip()` on a whole string. -/
def pyStripStr (s : String) : String := String.mk (pyStrip s.data)

/-- Python `s.split(sep, 1)[1]`: everything after the first occurrence of
`sep` (empty when `sep` does not occur — callers guard on membership). -/
def afterFirst (sep : Char) (l : List Char) : List Char :=
  (l.dropWhile (fun c => c ≠ sep)).tail

/-- Python `s.split('(')[0]`: everything before the first `(` (the whole
string when there is no `(`). -/
def beforeParen (l : List Char) : List Char :=
  l.takeWhile (fun c => c ≠ '(')

/-- The pure matching context computed at the top of `get_best_mal_id`. -/
structure MatchCtx where
  normalized_search : String
  split_ns : Option String
  isMovie : Bool
  isSeason0 : Bool

/-- Lines 75-82: lower the search term, normalize it, and compute the
colon-split variant when the term has a colon and the type is "movie". -/
def mkCtx (search_term : String) (anime_type : Option String) (isSeason0 : Bool) : MatchCtx :=
  let search_lower := pyLowerStr search_term
  let ns := normalize_text search_lower
  let split_ns :=
    if ':' ∈ search_term.data ∧ anime_type = some "movie" then
      some (normalize_text (pyStripStr (String.mk (afterFirst ':' search_lower.data))))
    else none
  ⟨ns, split_ns, anime_type = some "movie", isSeason0⟩

/-- Line 107: `if split_normalized_search and anime_type == "movie"` —
Python truthiness of the split variant (`None` and `""` are falsy). -/
def splitActive (ctx : MatchCtx) : Bool :=
  (match ctx.split_ns with | some s => s ≠ "" | none => false) && ctx.isMovie

/-- Lines 96-103: the similarity of one (lowered) candidate title against
the normalized search term; season-0 searches strip a parenthetical
suffix from the search term first. -/
def fullScore (ctx : MatchCtx) (title : String) : Sim :=
  if ctx.isSeason0 then
    fuzz_ratio (normalize_text title) (pyStripStr (String.mk (beforeParen ctx.normalized_search.data)))
  else
    fuzz_ratio (normalize_text title) ctx.normalized_search

/-- Lines 108-111: the subtitle-only similarity of one candidate title. -/
def splitScore (ctx : MatchCtx) (title : String) : Sim :=
  fuzz_ratio (normalize_text (pyStripStr (String.mk (afterFirst ':' title.data))))
    (ctx.split_ns.getD "")

/-- The initial `best_match = (None, 0)`. -/
def simZero : Sim := ⟨0, 1, by omega⟩

/-- Lines 104-105: `if similarity >= 85 and similarity > best_match[1]`. -/
def stepFull (ctx : MatchCtx) (aid : Nat) (best : Option Nat × Sim) (title : String) :
    Option Nat × Sim :=
  let sim := fullScore ctx title
  if sim.geNat 85 && best.2.ltSim sim then (some aid, sim) else best

/-- Lines 95-113: the body of the inner `for title in titles` loop,
updating `best_match` (the ≥85 full-title test, then the ≥90
subtitle-only test for movies). -/
def stepTitle (ctx : MatchCtx) (aid : Nat) (best : Option Nat × Sim) (title : String) :
    Option Nat × Sim :=
  let b1 := stepFull ctx aid best title
  if splitActive ctx then
    if ':' ∈ title.data then
      let ss := splitScore ctx title
      if ss.geNat 90 && b1.2.ltSim ss then (some aid, ss) else b1
    else b1
  else b1

def loopTitles (ctx : MatchCtx) (aid : Nat) : Option Nat × Sim → List String → Option Nat × Sim
  | best, [] => best
  | best, t :: ts => loopTitles ctx aid (stepTitle ctx aid best t) ts

def loopAnimes (ctx : MatchCtx) : Option Nat × Sim → List SearchAnime → Option Nat × Sim
  | best, [] => best
  | best, a :: rest => loopAnimes ctx (loopTitles ctx a.mal_id best (a.titles.map pyLowerStr)) rest

/-- Line 88 / 93: the accumulated `all_titles_seen` diagnostic list. -/
def allTitlesSeen : List SearchAnime → List String
  | [] => []
  | a :: rest => a.titles.map pyLowerStr ++ allTitlesSeen rest

/-- Embedding of `get_best_mal_id`: returns the best matching MAL id and
(on failure) all titles seen. -/
def get_best_mal_id (search_term : String) (anime_type : Option String) (isSeason0 : Bool)
    (search_results : List SearchAnime) : Option Nat × List String :=
  let ctx := mkCtx search_term anime_type isSeason0
  let best := loopAnimes ctx (none, simZero) search_results
  match best.1 with
  | some v => (some v, [])
  | none => (none, allTitlesSeen search_results)

/-! ### C8: the matcher never returns a candidate below the threshold -/

/-- A candidate id `v` is acceptable: some result anime carries it and one
of its lowered titles clears the applicable threshold. -/
def acceptedAt (ctx : MatchCtx) (rs : List SearchAnime) (v : Nat) : Prop :=
  ∃ a ∈ rs, a.mal_id = v ∧ ∃ t ∈ a.titles.map pyLowerStr,
    (fullScore ctx t).geNat 85 = true ∨
      (splitActive ctx = true ∧ ':' ∈ t.data ∧ (splitScore ctx t).geNat 90 = true)

/-- Concrete search-result list used to witness `c8_best_match_threshold`. -/
def rsW : List SearchAnime := [⟨7, ["abc"]⟩]

/-! ### `get_mal_relations` (`mal_mapper.py` lines 128-185)

The two Jikan calls (`get_anime_relations`, `get_anime`) are abstracted
into an environment.  The environment carries a finite domain containing
every id for which the external catalog has data; the recursion is
well-founded because each recursive call inserts into `visited` an id of
the domain that was not yet visited. -/

structure RelEntry where
  mal_id : Nat
  name : String

structure Relation where
  relation : String
  entry : List RelEntry

structure AnimeInfo where
  type_ : String
  episodes : Option Int

structure RelEnv where
  relations : Nat → Option (List Relation)
  info : Nat → Option AnimeInfo
  dom : Finset Nat
  rel_dom : ∀ i r, relations i = some r → i ∈ dom
  info_dom : ∀ i a, info i = some a → i ∈ dom

/-- Lines 146-152, inner loop: the first entry of one relation whose
normalized name reaches similarity ≥ 90 against the normalized title
(the inner `break` fires on the first such entry regardless of its id). -/
def firstMatchEntry (nt : String) : List RelEntry → Option Nat
  | [] => none
  | e :: es =>
    if (fuzz_ratio (normalize_text e.name) nt).geNat 90 then some e.mal_id
    else firstMatchEntry nt es

/-- Lines 143-156, outer loop: scan every relation (of every kind).
A matched entry with the falsy id 0 does not stop the outer loop
(`if sequel_id: break`), and a final falsy id falls through to the
sequel fallback, so only a nonzero match is reported. -/
def nameScan (nt : String) : List Relation → Option Nat
  | [] => none
  | rel :: rest =>
    match firstMatchEntry nt rel.entry with
    | some v => if v ≠ 0 then some v else nameScan nt rest
    | none => nameScan nt rest

/-- Lines 159-165: the first entry id among relations tagged "Sequel". -/
def findSequel : List Relation → Option Nat
  | [] => none
  | rel :: rest =>
    if rel.relation = "Sequel" then
      match rel.entry with
      | e :: _ => some e.mal_id
      | [] => findSequel rest
    else findSequel rest

/-- Embedding of `get_mal_relations`: prefer a relation entry whose name
matches the season title, fall back to the first "Sequel" entry, and
recurse through bridge entries (episode count 1 below the required
offset, or OVA/Special type), threading the visited set. -/
def get_mal_relations (env : RelEnv) (mal_id : Nat) (offset_eps : Int)
    (season_title : Option String) (visited : Finset Nat) : Option Nat :=
  if hmem : mal_id ∈ visited then none
  else
    match hrel : env.relations mal_id with
    | none => none
    | some relations =>
      let nm := match season_title with
        | some st => nameScan (normalize_text st) relations
        | none => none
      match nm with
      | some sid => some sid
      | none =>
        match findSequel relations with
        | none => none
        | some sid =>
          if sid = 0 then none
          else
            match env.info sid with
            | none => none
            | some ai =>
              let mal_eps : Int := ai.episodes.getD 0
              if (mal_eps < offset_eps ∧ mal_eps = 1) ∨ ai.type_ = "OVA" ∨ ai.type_ = "Special" then
                get_mal_relations env sid offset_eps season_title (insert mal_id visited)
              else some sid
termination_by (env.dom \ visited).card
decreasing_by
  have hd : mal_id ∈ env.dom := env.rel_dom mal_id relations hrel
  have hsub : env.dom \ insert mal_id visited ⊆ env.dom \ visited :=
    Finset.sdiff_subset_sdiff (Finset.Subset.refl _) (Finset.subset_insert _ _)
  have hmem2 : mal_id ∈ env.dom \ visited := Finset.mem_sdiff.mpr ⟨hd, hmem⟩
  have hnot : mal_id ∉ env.dom \ insert mal_id visited := by
    simp [Finset.mem_sdiff]
  exact Finset.card_lt_card
    (Finset.ssubset_def.mpr ⟨hsub, fun hts => hnot (hts hmem2)⟩)

/-! ### A concrete relation graph with a 2-cycle (for C9) -/

def cycRels (i : Nat) : Option (List Relation) :=
  if i = 1 then some [⟨"Sequel", [⟨2, "b"⟩]⟩]
  else if i = 2 then some [⟨"Sequel", [⟨1, "a"⟩]⟩]
  else none

def cycInfo (i : Nat) : Option AnimeInfo :=
  if i = 1 then some ⟨"TV", some 1⟩
  else if i = 2 then some ⟨"TV", some 1⟩
  else none

/-- Entries 1 and 2 are mutual sequels, each with 1 episode, so the
walker keeps recursing until the visited set stops it. -/
def cycEnv : RelEnv where
  relations := cycRels
  info := cycInfo
  dom := {1, 2}
  rel_dom := by
    intro i r h
    by_cases h1 : i = 1
    · subst h1; decide
    · by_cases h2 : i = 2
      · subst h2; decide
      · simp [cycRels, h1, h2] at h
  info_dom := by
    intro i a h
    by_cases h1 : i = 1
    · subst h1; decide
    · by_cases h2 : i = 2
      · subst h2; decide
      · simp [cycInfo, h1, h2] at h

/-! ### C4: the name-match threshold of the walker is 90, not 85 -/

/-- A single non-sequel relation whose entry name scores ≈85.7 against
the preferred title "abcdefg": above 85 but below 90. -/
def c4Rels (i : Nat) : Option (List Relation) :=
  if i = 1 then some [⟨"Side Story", [⟨77, "abcdefx"⟩]⟩] else none

def c4Env : RelEnv where
  relations := c4Rels
  info := fun _ => none
  dom := {1}
  rel_dom := by
    intro i r h
    by_cases h1 : i = 1
    · subst h1; decide
    · simp [c4Rels, h1] at h
  info_dom := by intro i a h; cases h

/-- A non-sequel relation whose entry name scores 100 against the
preferred title: the 90-threshold name scan accepts it. -/
def c4bRels (i : Nat) : Option (List Relation) :=
  if i = 1 then some [⟨"Side Story", [⟨77, "abcdefg"⟩]⟩] else none

def c4bEnv : RelEnv where
  relations := c4bRels
  info := fun _ => none
  dom := {1}
  rel_dom := by
    intro i r h
    by_cases h1 : i = 1
    · subst h1; decide
    · simp [c4bRels, h1] at h
  info_dom := by intro i a h; cases h

def c4cRelsL : List Relation :=
  [⟨"Side Story", [⟨77, "abcdefx"⟩]⟩, ⟨"Sequel", [⟨5, "s"⟩]⟩]

/-- No entry reaches 90, and a sequel-tagged relation exists: the walker
falls back to it. -/
def c4cEnv : RelEnv where
  relations := fun i => if i = 1 then some c4cRelsL else none
  info := fun i => if i = 5 then some ⟨"TV", some 12⟩ else none
  dom := {1, 5}
  rel_dom := by
    intro i r h
    by_cases h1 : i = 1
    · subst h1; decide
    · simp [h1] at h
  info_dom := by
    intro i a h
    by_cases h1 : i = 5
    · subst h1; decide
    · simp [h1] at h

/-! ### `get_mal_url` (`mal_mapper.py` lines 187-209)

The episode branch calls `safe_jikan.get_anime`, which raises
`ValueError` on a non-positive id and otherwise performs one Gateway
call; the result is a response whose `data` dict and `url` field may be
missing or falsy.  The pair's second component counts Gateway calls. -/

structure EpisodeData where
  url : Option String

structure JikanEpisodeResp where
  episode_data : Option EpisodeData

structure UrlEnv where
  getAnime : Nat → Nat → Option JikanEpisodeResp

/-- `full_url.rsplit("/", 1)[0]`: everything before the last `/` (the
whole string when there is no `/`). -/
def rsplitBase (l : List Char) : List Char :=
  if '/' ∈ l then ((l.reverse.dropWhile (fun c => c ≠ '/')).tail).reverse
  else l

/-- Embedding of `get_mal_url`.  `Except.error ()` models the
`ValueError` raised by `get_anime` for a non-positive id. -/
def get_mal_url (env : UrlEnv) (mal_id : Nat) (ep_number : Option Nat) :
    Except Unit (Option String) × Nat :=
  match ep_number with
  | none => (Except.ok (some ("https://myanimelist.net/anime/" ++ toString mal_id)), 0)
  | some ep =>
    if mal_id = 0 then (Except.error (), 0)
    else
      match env.getAnime mal_id ep with
      | none => (Except.ok none, 1)
      | some resp =>
        match resp.episode_data with
        | none => (Except.ok none, 1)
        | some ed =>
          match ed.url with
          | none => (Except.ok none, 1)
          | some u =>
            if u = "" then (Except.ok none, 1)
            else (Except.ok (some (String.mk (rsplitBase u.data) ++ "/")), 1)

/-- An environment whose Gateway always fails (irrelevant for the
series-page branch). -/
def urlEnvT : UrlEnv := ⟨fun _ _ => none⟩

/-! ### `SafeJikan._retry_on_failure` (`safe_jikan.py` lines 62-91)

The call target is modelled as a responder mapping the attempt index to
its outcome.  `retrySteps responder n` runs `n` iterations of the
`while True` loop (sleeps elided): a 429 `APIException` and any other
exception keep looping; an `APIException` with another status re-raises;
a successful call returns. -/

inductive CallRes where
  | success (v : Nat)
  | apiError (status : Nat)
  | transientError

inductive LoopOutcome where
  | running
  | done (v : Nat)
  | raised (status : Nat)
deriving DecidableEq

def retrySteps (responder : Nat → CallRes) : Nat → LoopOutcome
  | 0 => .running
  | n + 1 =>
    match retrySteps responder n with
    | .running =>
      match responder n with
      | .success v => .done v
      | .apiError s => if s = 429 then .running else .raised s
      | .transientError => .running
    | out => out

/-- The backoff delays slept between attempts: `delay = 1.0`, then
`delay = min(delay * 1.5, 60.0)` after every retried failure. -/
def retryDelay : Nat → ℚ
  | 0 => 1
  | n + 1 => min (retryDelay n * (3 / 2)) 60

def alwaysTransient : Nat → CallRes := fun _ => CallRes.transientError

/-! ### The write schedule of `map_anime` (`mal_mapper.py` lines 283-537)

Only the ordering of per-series traversal and file writes matters here:
inside a category, every series is processed by the series loop
(line 315), which contains no write of the mapping or unmapped files;
the block at lines 522-524 writes the mapped file once, after the series
loop; the three unmapped files are written only once at the end of
`map_anime` (lines 531-536). -/

inductive WriteEv where
  | seriesDone (category : String) (series_id : String)
  | flushMapped (category : String)
  | flushUnmappedSeries
  | flushUnmappedSeasons
  | flushUnmappedEpisodes
deriving DecidableEq

def mapAnimeWriteTrace : List (String × List String) → List WriteEv
  | [] => [.flushUnmappedSeries, .flushUnmappedSeasons, .flushUnmappedEpisodes]
  | (cat, series) :: rest =>
    series.map (WriteEv.seriesDone cat) ++ [WriteEv.flushMapped cat] ++ mapAnimeWriteTrace rest

/-! ### The per-series resolution state of `map_anime`
(`mal_mapper.py` lines 369-374)

`SeasonMalID`, `mal_eps`, `episode_offset` and `malurl` are the loose
local variables threaded through the season and episode loops. -/

structure SState where
  seasonMalId : Option Nat
  mal_eps : Option Int
  episode_offset : Int
  malurl : Option String
deriving DecidableEq

/-- Python truthiness of an optional integer id (`None` and `0` falsy). -/
def truthyNat : Option Nat → Bool
  | some m => m ≠ 0
  | none => false

/-- Python truthiness of an optional episode count. -/
def truthyInt : Option Int → Bool
  | some e => e ≠ 0
  | none => false

/-- Python truthiness of an optional string (`None` and `""` falsy). -/
def truthyStr : Option String → Bool
  | some s => s ≠ ""
  | none => false

/-- Python `a or b` on optional strings. -/
def pyOr (a b : Option String) : Option String := if truthyStr a then a else b

/-! ### The regular-episode branch (`mal_mapper.py` lines 499-520) -/

/-- The Gateway-dependent operations the episode branch performs:
`get_mal_relations(id, offset, None)`, `get_mal_episode_count(id)`, and
the `Option String` result of `get_mal_url(id, ep)` (the id passed is
nonzero on this path, so no `ValueError` arises). -/
structure EpEnv where
  walker : Nat → Int → Option Nat
  epCount : Nat → Option Int
  malUrl : Nat → Option Nat → Option String

/-- What one episode iteration produces: a mapped record with its URL, an
unmapped record carrying the previous id, or nothing at all (the
`elif SeasonMalID:` guard failed, so the episode is silently dropped). -/
inductive EpOut where
  | mapped (malId : Nat) (url : String)
  | unmappedEp (prev : Option Nat)
  | skipped
deriving DecidableEq

/-- Lines 511-520: `if SeasonMalID and malurl:` append a mapped record
with URL `f"{malurl}{episode_offset}"`, else an unmapped record with the
previous id. -/
def epRecord (st : SState) : EpOut :=
  match st.seasonMalId, st.malurl with
  | some m, some u =>
    if m ≠ 0 ∧ u ≠ "" then EpOut.mapped m (u ++ toString st.episode_offset)
    else EpOut.unmappedEp st.seasonMalId
  | _, _ => EpOut.unmappedEp st.seasonMalId

/-- Line 502: `if mal_eps and mal_eps < episode_offset` — the active
identifier's known (truthy) episode count is exceeded by the
just-incremented offset. -/
def exhausted (st : SState) : Bool :=
  match st.mal_eps with
  | some e => decide (e ≠ 0) && decide (e < st.episode_offset + 1)
  | none => false

/-- Embedding of one iteration of the episode loop in regular mode
(season ≥ 1, episode not in the lookup cache), lines 499-520.  Returns
the updated state, whether the Relation Graph Walker was invoked, and
the produced record. -/
def regularEpisodeStep (env : EpEnv) (total_episodes : Int) (st : SState) :
    SState × Bool × EpOut :=
  match st.seasonMalId with
  | none => (st, false, EpOut.skipped)
  | some m =>
    if m = 0 then (st, false, EpOut.skipped)
    else
      let off1 := st.episode_offset + 1
      if exhausted st then
        match env.walker m (total_episodes - off1 + 1) with
        | some nid =>
          if nid = 0 then
            let st2 := { st with seasonMalId := some nid, episode_offset := off1 }
            (st2, true, epRecord st2)
          else
            let st2 : SState :=
              { seasonMalId := some nid, mal_eps := env.epCount nid, episode_offset := 1,
                malurl := env.malUrl nid (if total_episodes = 1 then none else some 1) }
            (st2, true, epRecord st2)
        | none =>
          let st2 := { st with seasonMalId := none, episode_offset := off1 }
          (st2, true, epRecord st2)
      else
        let st2 := { st with episode_offset := off1 }
        (st2, false, epRecord st2)

/-- Run `n` consecutive regular episodes, collecting for each the
walker-invoked flag and the record it produced. -/
def runRegular (env : EpEnv) (total_episodes : Int) : SState → Nat → SState × List (Bool × EpOut)
  | st, 0 => (st, [])
  | st, n + 1 =>
    let r := regularEpisodeStep env total_episodes st
    let rest := runRegular env total_episodes r.1 n
    (rest.1, (r.2.1, r.2.2) :: rest.2)

/-- The concrete environment for the 12/13-episode scenarios: the active
identifier 1 has a successor 2 with 12 episodes. -/
def envC1 : EpEnv where
  walker := fun i off => if i = 1 ∧ off = 1 then some 2 else none
  epCount := fun i => if i = 2 then some 12 else none
  malUrl := fun i _ => if i = 2 then some "u2/" else none

/-- The state at the start of the season: active identifier 1,
`episodeCount = 12`, offset 0, base URL "u1/". -/
def st0 : SState := ⟨some 1, some 12, 0, some "u1/"⟩

/-! ### The season-level header of the season loop
(`mal_mapper.py` lines 385-433)

The Gateway-dependent calls are abstracted into an environment:
`search` is `get_best_mal_id(title, None, False)[0]`, `epCount` is
`get_mal_episode_count`, `relWalk` is
`get_mal_relations(id, total_episodes, season_title)`, and `malUrl` is
the `Option String` result of `get_mal_url`. -/

structure SeasonCtx where
  season_num : Nat
  lookupEntry : Option (Nat × String)
  titles_to_try : List String
  total_episodes : Nat
  season_title_eng : Option String
  season_title_jpn : Option String

structure SeEnv where
  search : String → Option Nat
  epCount : Nat → Option Int
  relWalk : Nat → Int → Option String → Option Nat
  malUrl : Nat → Option Nat → Option String

/-- Lines 391-395 / 406-410: try titles in order, keeping the first
truthy id (`if mid:` skips a falsy 0). -/
def firstHit (env : SeEnv) : List String → Option Nat
  | [] => none
  | t :: ts =>
    match env.search t with
    | some m => if m ≠ 0 then some m else firstHit env ts
    | none => firstHit env ts

/-- Line 401: `if mal_eps and mal_eps == episode_offset`. -/
def seasonExhausted (st : SState) : Bool :=
  match st.mal_eps with
  | some e => decide (e ≠ 0) && decide (e = st.episode_offset)
  | none => false

/-- How the season header ends: fall through to the episode loop
(`proceed`, a mapped season record was appended), skip the episode loop
(`skipEps`, the `continue` after an unmapped season record), or abort
with an uncaught exception (`raised`: `get_mal_episode_count` /
the relations fetch called on a falsy identifier raises). -/
inductive SeasonRes where
  | proceed (st : SState)
  | skipEps (st : SState)
  | raised
deriving DecidableEq

/-- Embedding of the season-level state updates, lines 385-433.  Note
that for an uncached season 0 the whole block is skipped (`if
season_num != "0":` has no else), and that the final guard
`SeasonMalID and SeasonMalID not in lookup` compares an integer id with
the lookup's string keys, so the `not in` half is always true. -/
def seasonHeader (env : SeEnv) (ctx : SeasonCtx) (st : SState) : SeasonRes :=
  match ctx.lookupEntry with
  | some e => SeasonRes.proceed { st with seasonMalId := some e.1, malurl := some e.2 }
  | none =>
    if ctx.season_num = 0 then SeasonRes.proceed st
    else
      let st1 :=
        if truthyNat st.seasonMalId = false ∧ ctx.titles_to_try ≠ [] then
          match firstHit env ctx.titles_to_try with
          | some m => { st with seasonMalId := some m }
          | none => st
        else st
      let epArg : Option Nat := if ctx.total_episodes = 1 then none else some 1
      let init : SState → SState := fun s =>
        match s.seasonMalId with
        | some m =>
          { s with episode_offset := 0, mal_eps := env.epCount m, malurl := env.malUrl m epArg }
        | none => s
      if ctx.season_num = 1 ∧ truthyNat st1.seasonMalId = false then SeasonRes.raised
      else
        let st2 := if ctx.season_num = 1 then init st1 else st1
        if seasonExhausted st2 then
          match st2.seasonMalId with
          | none => SeasonRes.raised
          | some m0 =>
            if m0 = 0 then SeasonRes.raised
            else
              let temp := env.relWalk m0 ctx.total_episodes
                (pyOr ctx.season_title_eng ctx.season_title_jpn)
              let st3 :=
                if truthyNat temp then { st2 with seasonMalId := temp }
                else if ctx.titles_to_try ≠ [] then
                  match firstHit env ctx.titles_to_try with
                  | some m => { st2 with seasonMalId := some m }
                  | none => st2
                else st2
              let st4 := if truthyNat st3.seasonMalId then init st3 else st3
              if truthyNat st4.seasonMalId then SeasonRes.proceed st4 else SeasonRes.skipEps st4
        else
          if truthyNat st2.seasonMalId then SeasonRes.proceed st2 else SeasonRes.skipEps st2

/-- An environment whose oracles all fail (season 0 never consults them). -/
def seEnvT : SeEnv := ⟨fun _ => none, fun _ => none, fun _ _ _ => none, fun _ _ => none⟩

/-- An uncached season 0 with a nonempty title list. -/
def ctx0 : SeasonCtx := ⟨0, none, ["t"], 12, some "T", none⟩

/-- A state entering season 0 with an active identifier. -/
def stC6 : SState := ⟨some 5, some 12, 7, some "u"⟩

/-- A search oracle that resolves the title "t" to id 9. -/
def seEnvS : SeEnv := ⟨fun t => if t = "t" then some 9 else none,
  fun _ => none, fun _ _ _ => none, fun _ _ => none⟩

/-- An uncached season 2 with a nonempty title list. -/
def ctx2 : SeasonCtx := ⟨2, none, ["t"], 12, some "T", none⟩

/-! ## Theorems -/

/-! ### Facts about the character primitives -/

theorem toNat_ofNat_valid {n : Nat} (h : n < 55296) : (Char.ofNat n).toNat = n := by
  have hv : n.isValidChar := Or.inl h
  rw [Char.ofNat, dif_pos hv]
  rfl

theorem lowerChar_toNat_of_upper {c : Char} (h : 65 ≤ c.toNat ∧ c.toNat ≤ 90) :
    (lowerChar c).toNat = c.toNat + 32 := by
  rw [lowerChar, if_pos h]
  exact toNat_ofNat_valid (by omega)

theorem lowerChar_eq_self {d : Char} (h : ¬(65 ≤ d.toNat ∧ d.toNat ≤ 90)) :
    lowerChar d = d := by
  simp only [lowerChar, if_neg h]

theorem lowerChar_idem (c : Char) : lowerChar (lowerChar c) = lowerChar c := by
  by_cases h : 65 ≤ c.toNat ∧ c.toNat ≤ 90
  · have ht := lowerChar_toNat_of_upper h
    exact lowerChar_eq_self (by omega)
  · rw [lowerChar_eq_self h]
    exact lowerChar_eq_self h

theorem pyIsSpace_lowerChar (c : Char) : pyIsSpace (lowerChar c) = pyIsSpace c := by
  by_cases h : 65 ≤ c.toNat ∧ c.toNat ≤ 90
  · have ht := lowerChar_toNat_of_upper h
    have hL : pyIsSpace (lowerChar c) = false := by
      simp only [pyIsSpace, ht, Bool.or_eq_false_iff, beq_eq_false_iff_ne, ne_eq]
      omega
    have hR : pyIsSpace c = false := by
      simp only [pyIsSpace, Bool.or_eq_false_iff, beq_eq_false_iff_ne, ne_eq]
      omega
    rw [hL, hR]
  · rw [lowerChar_eq_self h]

theorem isPunct_lowerChar (c : Char) : isPunct (lowerChar c) = isPunct c := by
  by_cases h : 65 ≤ c.toNat ∧ c.toNat ≤ 90
  · have ht := lowerChar_toNat_of_upper h
    have hL : isPunct (lowerChar c) = false := by
      simp only [isPunct, ht, Bool.or_eq_false_iff, beq_eq_false_iff_ne, ne_eq]
      omega
    have hR : isPunct c = false := by
      simp only [isPunct, Bool.or_eq_false_iff, beq_eq_false_iff_ne, ne_eq]
      omega
    rw [hL, hR]
  · rw [lowerChar_eq_self h]

/-! ### Idempotence machinery for `normalize_text` -/

theorem dropWhile_idem (p : Char → Bool) (l : List Char) :
    (l.dropWhile p).dropWhile p = l.dropWhile p := by
  induction l with
  | nil => rfl
  | cons a as ih =>
    by_cases h : p a
    · simp [List.dropWhile_cons, h, ih]
    · simp [List.dropWhile_cons, h]

theorem dropWhile_eq_self_of_front {p : Char → Bool} {m m' : List Char}
    (hm : m.dropWhile p = m) (hpre : ∃ t, m' ++ t = m) :
    m'.dropWhile p = m' := by
  cases m' with
  | nil => rfl
  | cons a as =>
    obtain ⟨t, ht⟩ := hpre
    have ha : ¬ p a := by
      intro hpa
      have h1 : m.dropWhile p = (as ++ t).dropWhile p := by
        rw [← ht, List.cons_append, List.dropWhile_cons_of_pos hpa]
      have h2 : (m.dropWhile p).length ≤ (as ++ t).length := by
        rw [h1]
        exact ((as ++ t).dropWhile_suffix p).length_le
      rw [hm, ← ht] at h2
      simp only [List.cons_append, List.length_cons, List.length_append] at h2
      omega
    simp [List.dropWhile_cons, ha]

theorem dropRightWhile_idem (p : Char → Bool) (l : List Char) :
    dropRightWhile p (dropRightWhile p l) = dropRightWhile p l := by
  simp only [dropRightWhile, List.reverse_reverse]
  rw [dropWhile_idem]

theorem dropRightWhile_is_front (p : Char → Bool) (l : List Char) :
    ∃ t, dropRightWhile p l ++ t = l := by
  obtain ⟨s, hs⟩ := l.reverse.dropWhile_suffix p
  refine ⟨s.reverse, ?_⟩
  rw [dropRightWhile, ← List.reverse_append, hs, List.reverse_reverse]

theorem pyStrip_idem (l : List Char) : pyStrip (pyStrip l) = pyStrip l := by
  simp only [pyStrip]
  rw [dropWhile_eq_self_of_front (dropWhile_idem pyIsSpace l)
    (dropRightWhile_is_front pyIsSpace (l.dropWhile pyIsSpace))]
  exact dropRightWhile_idem pyIsSpace _

theorem dropWhile_map_pres {p : Char → Bool} {f : Char → Char}
    (hf : ∀ c, p (f c) = p c) (l : List Char) :
    (l.map f).dropWhile p = (l.dropWhile p).map f := by
  induction l with
  | nil => rfl
  | cons a as ih =>
    by_cases h : p a
    · simp [List.dropWhile_cons, hf, h, ih]
    · simp [List.dropWhile_cons, hf, h]

theorem dropRightWhile_map_pres {p : Char → Bool} {f : Char → Char}
    (hf : ∀ c, p (f c) = p c) (l : List Char) :
    dropRightWhile p (l.map f) = (dropRightWhile p l).map f := by
  simp only [dropRightWhile]
  rw [← List.map_reverse, dropWhile_map_pres hf, List.map_reverse]

theorem pyStrip_map_pres {f : Char → Char}
    (hf : ∀ c, pyIsSpace (f c) = pyIsSpace c) (l : List Char) :
    pyStrip (l.map f) = (pyStrip l).map f := by
  simp only [pyStrip]
  rw [dropWhile_map_pres hf, dropRightWhile_map_pres hf]

theorem mem_pyStrip_subset {c : Char} {l : List Char} (h : c ∈ pyStrip l) : c ∈ l := by
  simp only [pyStrip] at h
  obtain ⟨t, ht⟩ := dropRightWhile_is_front pyIsSpace (l.dropWhile pyIsSpace)
  have h1 : c ∈ l.dropWhile pyIsSpace := by
    rw [← ht]
    exact List.mem_append_left _ h
  exact ((l.dropWhile_suffix pyIsSpace).sublist).mem h1

/-- The core of idempotence: the body of `normalize_text` is a fixed point
of itself. -/
theorem normalize_body_fixed (l : List Char) :
    pyLower (pyStrip (stripPunct (pyLower (pyStrip (stripPunct l))))) =
      pyLower (pyStrip (stripPunct l)) := by
  set w := pyStrip (stripPunct l) with hw
  have hnp : ∀ c ∈ pyLower w, (!isPunct c) = true := by
    intro c hc
    simp only [pyLower, List.mem_map] at hc
    obtain ⟨c0, hc0, rfl⟩ := hc
    have hc0l : c0 ∈ stripPunct l := mem_pyStrip_subset (hw ▸ hc0)
    have := List.of_mem_filter hc0l
    rw [isPunct_lowerChar]
    simpa using this
  rw [show stripPunct (pyLower w) = pyLower w from List.filter_eq_self.mpr hnp]
  rw [show pyStrip (pyLower w) = pyLower w by
    rw [pyLower, pyStrip_map_pres pyIsSpace_lowerChar, hw, pyStrip_idem]]
  rw [pyLower, pyLower, List.map_map]
  apply List.map_congr_left
  intro a _
  exact lowerChar_idem a

theorem normalize_text_eq {s : String} (hs : s ≠ "") :
    normalize_text s = String.mk (pyLower (pyStrip (stripPunct s.data))) := by
  rw [normalize_text, if_neg hs]

theorem normalize_text_idem (s : String) :
    normalize_text (normalize_text s) = normalize_text s := by
  by_cases hs : s = ""
  · simp [normalize_text, hs]
  · by_cases hLe : normalize_text s = ""
    · rw [hLe]
      simp [normalize_text]
    · rw [normalize_text_eq hLe, normalize_text_eq hs]
      exact congrArg String.mk (normalize_body_fixed s.data)

theorem Sim.geNat_iff (s : Sim) (t : Nat) : s.geNat t = true ↔ (t : ℚ) ≤ s.toRat := by
  have hd : (0 : ℚ) < (s.den : ℚ) := by exact_mod_cast s.den_pos
  rw [Sim.geNat, Sim.toRat, le_div_iff₀ hd, decide_eq_true_eq]
  exact_mod_cast Iff.rfl

theorem Sim.ltSim_iff (a b : Sim) : a.ltSim b = true ↔ a.toRat < b.toRat := by
  have hda : (0 : ℚ) < (a.den : ℚ) := by exact_mod_cast a.den_pos
  have hdb : (0 : ℚ) < (b.den : ℚ) := by exact_mod_cast b.den_pos
  rw [Sim.ltSim, Sim.toRat, Sim.toRat, div_lt_div_iff₀ hda hdb, decide_eq_true_eq]
  exact_mod_cast Iff.rfl

theorem stepTitle_pres (ctx : MatchCtx) (rs : List SearchAnime) {a : SearchAnime}
    (ha : a ∈ rs) {t : String} (ht : t ∈ a.titles.map pyLowerStr)
    {best : Option Nat × Sim} (hb : ∀ v, best.1 = some v → acceptedAt ctx rs v) :
    ∀ v, (stepTitle ctx a.mal_id best t).1 = some v → acceptedAt ctx rs v := by
  intro v hv
  have hfull : ∀ w, (stepFull ctx a.mal_id best t).1 = some w → acceptedAt ctx rs w := by
    intro w h1
    simp only [stepFull] at h1
    split at h1
    · rename_i hcond
      obtain ⟨h85, _⟩ := Bool.and_eq_true_iff.mp hcond
      cases h1
      exact ⟨a, ha, rfl, t, ht, Or.inl h85⟩
    · exact hb w h1
  simp only [stepTitle] at hv
  split at hv
  · rename_i hact
    split at hv
    · rename_i hcol
      split at hv
      · rename_i hcond
        obtain ⟨h90, _⟩ := Bool.and_eq_true_iff.mp hcond
        cases hv
        exact ⟨a, ha, rfl, t, ht, Or.inr ⟨hact, hcol, h90⟩⟩
      · exact hfull v hv
    · exact hfull v hv
  · exact hfull v hv

theorem loopTitles_pres (ctx : MatchCtx) (rs : List SearchAnime) {a : SearchAnime}
    (ha : a ∈ rs) :
    ∀ ts : List String, (∀ t ∈ ts, t ∈ a.titles.map pyLowerStr) →
      ∀ best : Option Nat × Sim, (∀ v, best.1 = some v → acceptedAt ctx rs v) →
      ∀ v, (loopTitles ctx a.mal_id best ts).1 = some v → acceptedAt ctx rs v := by
  intro ts
  induction ts with
  | nil => intro _ best hb; exact hb
  | cons t ts ih =>
    intro hsub best hb
    exact ih (fun x hx => hsub x (List.mem_cons_of_mem _ hx)) _
      (stepTitle_pres ctx rs ha (hsub t (List.mem_cons_self _ _)) hb)

theorem loopAnimes_pres (ctx : MatchCtx) (rs : List SearchAnime) :
    ∀ sub : List SearchAnime, (∀ x ∈ sub, x ∈ rs) →
      ∀ best : Option Nat × Sim, (∀ v, best.1 = some v → acceptedAt ctx rs v) →
      ∀ v, (loopAnimes ctx best sub).1 = some v → acceptedAt ctx rs v := by
  intro sub
  induction sub with
  | nil => intro _ best hb; exact hb
  | cons a rest ih =>
    intro hsub best hb
    exact ih (fun x hx => hsub x (List.mem_cons_of_mem _ hx)) _
      (loopTitles_pres ctx rs (hsub a (List.mem_cons_self _ _)) _ (fun _ h => h) best hb)

/-- C8: For every search term, candidate set and category flag, whenever
`get_best_mal_id` returns a candidate, that candidate carries a title
whose similarity score against the normalized search term is at least 85,
or, for the subtitle-only movie variant, at least 90; no candidate
scoring below the applicable threshold is ever returned. -/
theorem c8_best_match_threshold (search_term : String) (anime_type : Option String)
    (isSeason0 : Bool) (rs : List SearchAnime) (v : Nat)
    (h : (get_best_mal_id search_term anime_type isSeason0 rs).1 = some v) :
    ∃ a ∈ rs, a.mal_id = v ∧ ∃ t ∈ a.titles.map pyLowerStr,
      (85 : ℚ) ≤ (fullScore (mkCtx search_term anime_type isSeason0) t).toRat ∨
        (splitActive (mkCtx search_term anime_type isSeason0) = true ∧
          (90 : ℚ) ≤ (splitScore (mkCtx search_term anime_type isSeason0) t).toRat) := by
  simp only [get_best_mal_id] at h
  split at h
  · rename_i w heq
    simp only [Option.some.injEq] at h
    subst h
    obtain ⟨a, ha, hav, t, htt, hdisj⟩ :=
      loopAnimes_pres (mkCtx search_term anime_type isSeason0) rs rs (fun _ hx => hx)
        (none, simZero) (fun _ hv => by cases hv) w heq
    refine ⟨a, ha, hav, t, htt, ?_⟩
    rcases hdisj with h85 | ⟨hact, _, h90⟩
    · exact Or.inl (by exact_mod_cast (Sim.geNat_iff _ 85).mp h85)
    · exact Or.inr ⟨hact, by exact_mod_cast (Sim.geNat_iff _ 90).mp h90⟩
  · simp at h

/-- Witness for C8 at a concrete input: searching "abc" over a single
candidate whose title is "abc" returns id 7, and the guarantee holds. -/
theorem c8_best_match_threshold_witness :
    ∃ a ∈ rsW, a.mal_id = 7 ∧ ∃ t ∈ a.titles.map pyLowerStr,
      (85 : ℚ) ≤ (fullScore (mkCtx "abc" none false) t).toRat ∨
        (splitActive (mkCtx "abc" none false) = true ∧
          (90 : ℚ) ≤ (splitScore (mkCtx "abc" none false) t).toRat) :=
  c8_best_match_threshold "abc" none false rsW 7 (by decide)

theorem get_mal_relations_visited (env : RelEnv) (mal_id : Nat) (offset_eps : Int)
    (season_title : Option String) (visited : Finset Nat) (h : mal_id ∈ visited) :
    get_mal_relations env mal_id offset_eps season_title visited = none := by
  rw [get_mal_relations.eq_def, dif_pos h]

/-- Unfolding of `get_mal_relations` once the relations fetch is known. -/
theorem get_mal_relations_unfold (env : RelEnv) (mal_id : Nat) (offset_eps : Int)
    (season_title : Option String) (visited : Finset Nat)
    (h : mal_id ∉ visited) (rels : List Relation)
    (hrel : env.relations mal_id = some rels) :
    get_mal_relations env mal_id offset_eps season_title visited =
      (match (match season_title with
          | some st => nameScan (normalize_text st) rels
          | none => none) with
        | some sid => some sid
        | none =>
          match findSequel rels with
          | none => none
          | some sid =>
            if sid = 0 then none
            else
              match env.info sid with
              | none => none
              | some ai =>
                if (ai.episodes.getD 0 < offset_eps ∧ ai.episodes.getD 0 = 1) ∨
                    ai.type_ = "OVA" ∨ ai.type_ = "Special" then
                  get_mal_relations env sid offset_eps season_title (insert mal_id visited)
                else some sid) := by
  rw [get_mal_relations.eq_def, dif_neg h]
  split
  · rename_i hnone
    rw [hrel] at hnone
    cases hnone
  · rename_i rels2 hrel2
    rw [hrel] at hrel2
    injection hrel2 with hh
    subst hh
    rfl

theorem cyc_eval : get_mal_relations cycEnv 1 5 none ∅ = none := by
  rw [get_mal_relations_unfold cycEnv 1 5 none ∅ (by decide) _ rfl]
  norm_num [findSequel, show cycEnv.info 2 = some ⟨"TV", some 1⟩ from rfl]
  rw [get_mal_relations_unfold cycEnv 2 5 none {1} (by decide) _ rfl]
  norm_num [findSequel, show cycEnv.info 1 = some ⟨"TV", some 1⟩ from rfl]
  exact get_mal_relations_visited _ _ _ _ _ (by decide)

/-- C9: The Relation Graph Walker terminates on every input — in this
embedding `get_mal_relations` is a total function whose recursion is
well-founded by the measure `(env.dom \ visited).card`, i.e. the number
of distinct catalog identifiers not yet visited, exactly the bound the
claim states.  It returns `none` upon revisiting an already-seen entry,
and on the concrete 2-cycle `1 ↔ 2` it terminates with `none`. -/
theorem c9_walker_terminates :
    (∀ (env : RelEnv) (mal_id : Nat) (offset_eps : Int) (season_title : Option String)
        (visited : Finset Nat), mal_id ∈ visited →
        get_mal_relations env mal_id offset_eps season_title visited = none) ∧
      get_mal_relations cycEnv 1 5 none ∅ = none :=
  ⟨fun env i off t vis h => get_mal_relations_visited env i off t vis h, cyc_eval⟩

/-- Witness for C9 at a concrete input: id 1 with visited set `{1}`. -/
theorem c9_walker_terminates_witness :
    get_mal_relations cycEnv 1 5 none {1} = none :=
  c9_walker_terminates.1 cycEnv 1 5 none {1} (by decide)

theorem firstMatchEntry_sound (nt : String) :
    ∀ (es : List RelEntry) (v : Nat), firstMatchEntry nt es = some v →
      ∃ e ∈ es, (fuzz_ratio (normalize_text e.name) nt).geNat 90 = true ∧ e.mal_id = v := by
  intro es
  induction es with
  | nil => intro v h; cases h
  | cons e es ih =>
    intro v h
    simp only [firstMatchEntry] at h
    split at h
    · rename_i hge
      injection h with hh
      exact ⟨e, List.mem_cons_self _ _, hge, hh⟩
    · obtain ⟨e2, he2, hge, hid⟩ := ih v h
      exact ⟨e2, List.mem_cons_of_mem _ he2, hge, hid⟩

theorem nameScan_sound (nt : String) :
    ∀ (rels : List Relation) (v : Nat), nameScan nt rels = some v →
      ∃ rel ∈ rels, ∃ e ∈ rel.entry,
        (fuzz_ratio (normalize_text e.name) nt).geNat 90 = true ∧ e.mal_id = v := by
  intro rels
  induction rels with
  | nil => intro v h; cases h
  | cons rel rest ih =>
    intro v h
    simp only [nameScan] at h
    split at h
    · rename_i w hw
      split at h
      · injection h with hh
        obtain ⟨e, he, hge, hid⟩ := firstMatchEntry_sound nt rel.entry w hw
        exact ⟨rel, List.mem_cons_self _ _, e, he, hge, hid.trans hh⟩
      · obtain ⟨r2, hr2, e, he, hge, hid⟩ := ih v h
        exact ⟨r2, List.mem_cons_of_mem _ hr2, e, he, hge, hid⟩
    · obtain ⟨r2, hr2, e, he, hge, hid⟩ := ih v h
      exact ⟨r2, List.mem_cons_of_mem _ hr2, e, he, hge, hid⟩

/-- When the name scan finds a (nonzero) match, the walker returns it
directly and the sequel fallback is never consulted. -/
theorem get_mal_relations_of_nameScan (env : RelEnv) (mal_id : Nat) (offset_eps : Int)
    (st : String) (visited : Finset Nat) (hvis : mal_id ∉ visited)
    (rels : List Relation) (hrel : env.relations mal_id = some rels)
    (v : Nat) (hscan : nameScan (normalize_text st) rels = some v) :
    get_mal_relations env mal_id offset_eps (some st) visited = some v := by
  rw [get_mal_relations_unfold env mal_id offset_eps (some st) visited hvis rels hrel]
  simp only [hscan]

/-- C4 counterexample: the preferred-title "abcdefg" scores 600/7 ≈ 85.7
(at least 85, below 90) against the only relation entry "abcdefx", yet
the walker does not accept it as a name match — the code's threshold is
90, not 85 — and, with no sequel-tagged relation, returns `none`. -/
theorem c4_counterexample :
    (85 : ℚ) ≤ (fuzz_ratio (normalize_text "abcdefx") (normalize_text "abcdefg")).toRat ∧
      ¬ (90 : ℚ) ≤ (fuzz_ratio (normalize_text "abcdefx") (normalize_text "abcdefg")).toRat ∧
      get_mal_relations c4Env 1 5 (some "abcdefg") ∅ = none := by
  refine ⟨?_, ?_, ?_⟩
  · exact_mod_cast (Sim.geNat_iff _ 85).mp (by decide)
  · intro hc
    have hb : (fuzz_ratio (normalize_text "abcdefx") (normalize_text "abcdefg")).geNat 90 = true :=
      (Sim.geNat_iff _ 90).mpr (by exact_mod_cast hc)
    exact absurd hb (by decide)
  · rw [get_mal_relations_unfold c4Env 1 5 (some "abcdefg") ∅ (by decide) _ rfl]
    have hscan : nameScan (normalize_text "abcdefg")
        [⟨"Side Story", [⟨77, "abcdefx"⟩]⟩] = none := by decide
    have hfs : findSequel [⟨"Side Story", [⟨77, "abcdefx"⟩]⟩] = none := by decide
    simp only [hscan, hfs]

/-- C4 (amended): in the Relation Graph Walker, when a preferred title is
given, a relation entry is accepted as a name match whenever its name
achieves similarity ≥ 90 (not 85) to the normalized preferred title; the
scan covers entries of every relation kind, not only "sequel"-tagged
ones; and only if no entry reaches 90 does the walker fall back to the
first sequel-tagged relation. -/
theorem c4_amended_name_threshold :
    (∀ (nt : String) (rels : List Relation) (v : Nat), nameScan nt rels = some v →
        ∃ rel ∈ rels, ∃ e ∈ rel.entry,
          (90 : ℚ) ≤ (fuzz_ratio (normalize_text e.name) nt).toRat ∧ e.mal_id = v) ∧
      (∀ (env : RelEnv) (mal_id : Nat) (offset_eps : Int) (st : String) (visited : Finset Nat),
        mal_id ∉ visited → ∀ rels, env.relations mal_id = some rels →
          ∀ v, nameScan (normalize_text st) rels = some v →
            get_mal_relations env mal_id offset_eps (some st) visited = some v) ∧
      get_mal_relations c4bEnv 1 5 (some "abcdefg") ∅ = some 77 ∧
      get_mal_relations c4cEnv 1 5 (some "abcdefg") ∅ = some 5 := by
  refine ⟨?_, ?_, ?_, ?_⟩
  · intro nt rels v h
    obtain ⟨rel, hrel, e, he, hge, hid⟩ := nameScan_sound nt rels v h
    exact ⟨rel, hrel, e, he, by exact_mod_cast (Sim.geNat_iff _ 90).mp hge, hid⟩
  · intro env mal_id offset_eps st visited hvis rels hrel v hscan
    exact get_mal_relations_of_nameScan env mal_id offset_eps st visited hvis rels hrel v hscan
  · exact get_mal_relations_of_nameScan c4bEnv 1 5 "abcdefg" ∅ (by decide) _ rfl 77 (by decide)
  · rw [get_mal_relations_unfold c4cEnv 1 5 (some "abcdefg") ∅ (by decide) _ rfl]
    have hscan : nameScan (normalize_text "abcdefg") c4cRelsL = none := by decide
    have hfs : findSequel c4cRelsL = some 5 := by decide
    simp only [hscan, hfs]
    rw [if_neg (by decide : ¬(5 = 0))]
    simp only [show c4cEnv.info 5 = some ⟨"TV", some 12⟩ from rfl]
    rw [if_neg (by decide)]

/-- Witness for the amended C4 at a concrete input: the 100-scoring
"Side Story" entry of `c4bEnv` is reported by the name scan. -/
theorem c4_amended_name_threshold_witness :
    ∃ rel ∈ [(⟨"Side Story", [⟨77, "abcdefg"⟩]⟩ : Relation)], ∃ e ∈ rel.entry,
      (90 : ℚ) ≤ (fuzz_ratio (normalize_text e.name) (normalize_text "abcdefg")).toRat ∧
        e.mal_id = 77 :=
  c4_amended_name_threshold.1 (normalize_text "abcdefg")
    [⟨"Side Story", [⟨77, "abcdefg"⟩]⟩] 77 (by decide)

/-- C10: for every positive id, requesting a locator with no episode
number returns the constant series page URL, never fails, and performs
zero Gateway calls. -/
theorem c10_series_url_pure (env : UrlEnv) (mal_id : Nat) (h : 0 < mal_id) :
    get_mal_url env mal_id none =
      (Except.ok (some ("https://myanimelist.net/anime/" ++ toString mal_id)), 0) := rfl

/-- Witness for C10 at the concrete id 30. -/
theorem c10_series_url_pure_witness :
    get_mal_url urlEnvT 30 none =
      (Except.ok (some "https://myanimelist.net/anime/30"), 0) :=
  c10_series_url_pure urlEnvT 30 (by decide)

theorem retrySteps_alwaysTransient (n : Nat) :
    retrySteps alwaysTransient n = LoopOutcome.running := by
  induction n with
  | zero => rfl
  | succ n ih => simp [retrySteps, ih, alwaysTransient]

theorem retryDelay_bounds (n : Nat) : 1 ≤ retryDelay n ∧ retryDelay n ≤ 60 := by
  induction n with
  | zero => constructor <;> norm_num [retryDelay]
  | succ n ih =>
    obtain ⟨h1, h60⟩ := ih
    constructor
    · rw [retryDelay, le_min_iff]
      constructor <;> nlinarith
    · rw [retryDelay]
      exact min_le_right _ _

/-- C3 counterexample: with every attempt failing with a transient
network error, the gateway is still inside its retry loop after 50
attempts — no bounded-attempt cutoff and no Unavailable return exists. -/
theorem c3_counterexample : retrySteps alwaysTransient 50 = LoopOutcome.running := by decide

/-- C3 (amended): on transient/network errors the gateway retries with
capped, non-decreasing backoff indefinitely — after any number of
attempts it is still retrying and never returns an Unavailable-style
result — while a non-retryable application error (an `APIException`
whose status is not 429) propagates immediately on the attempt that
raises it. -/
theorem c3_amended_unbounded_retry :
    (∀ n, retrySteps alwaysTransient n = LoopOutcome.running) ∧
      (∀ (responder : Nat → CallRes) (s : Nat), responder 0 = CallRes.apiError s →
        s ≠ 429 → retrySteps responder 1 = LoopOutcome.raised s) ∧
      (∀ n, 1 ≤ retryDelay n ∧ retryDelay n ≤ 60 ∧ retryDelay n ≤ retryDelay (n + 1)) := by
  refine ⟨retrySteps_alwaysTransient, ?_, ?_⟩
  · intro responder s h0 hne
    simp [retrySteps, h0, hne]
  · intro n
    obtain ⟨h1, h60⟩ := retryDelay_bounds n
    refine ⟨h1, h60, ?_⟩
    have heq : retryDelay (n + 1) = min (retryDelay n * (3 / 2)) 60 := rfl
    rw [heq, le_min_iff]
    constructor <;> nlinarith

/-- Witness for the amended C3: a 404 `APIException` on the first attempt
propagates immediately. -/
theorem c3_amended_unbounded_retry_witness :
    retrySteps (fun _ => CallRes.apiError 404) 1 = LoopOutcome.raised 404 :=
  c3_amended_unbounded_retry.2.1 (fun _ => CallRes.apiError 404) 404 rfl (by decide)

/-- C2 (code bug): with two series in one category, no flush of any kind
occurs between the completion of the first series and the completion of
the second; the mapped file is written once per category after its
whole series loop, and the unmapped files only at program exit — the
comment "Save progress after each series" (line 522) notwithstanding. -/
theorem c2_flush_once_per_category :
    mapAnimeWriteTrace [("series", ["s1", "s2"])] =
      [WriteEv.seriesDone "series" "s1", WriteEv.seriesDone "series" "s2",
        WriteEv.flushMapped "series", WriteEv.flushUnmappedSeries,
        WriteEv.flushUnmappedSeasons, WriteEv.flushUnmappedEpisodes] := by decide

theorem regularEpisodeStep_flag (env : EpEnv) (total : Int) (st : SState) :
    (regularEpisodeStep env total st).2.1 = (truthyNat st.seasonMalId && exhausted st) := by
  rcases hm : st.seasonMalId with _ | m
  · simp [regularEpisodeStep, truthyNat, hm]
  · by_cases hz : m = 0
    · subst hz
      simp [regularEpisodeStep, truthyNat, hm]
    · by_cases hex : exhausted st
      · rcases hw : env.walker m (total - (st.episode_offset + 1) + 1) with _ | nid
        · simp [regularEpisodeStep, truthyNat, hm, hz, hex, hw]
        · by_cases hn : nid = 0 <;>
            simp [regularEpisodeStep, truthyNat, hm, hz, hex, hw, hn]
      · simp [regularEpisodeStep, truthyNat, hm, hz, hex]

theorem exhausted_iff (st : SState) :
    exhausted st = true ↔ ∃ e, st.mal_eps = some e ∧ e ≠ 0 ∧ e < st.episode_offset + 1 := by
  rcases he : st.mal_eps with _ | e
  · simp [exhausted, he]
  · simp [exhausted, he]

theorem truthyNat_iff (o : Option Nat) :
    truthyNat o = true ↔ ∃ m, o = some m ∧ m ≠ 0 := by
  rcases o with _ | m <;> simp [truthyNat]

theorem regularEpisodeStep_no_walk (env : EpEnv) (total : Int) (st : SState) (m : Nat)
    (hm : st.seasonMalId = some m) (hz : m ≠ 0)
    (hex : exhausted st = false) :
    (regularEpisodeStep env total st).1.episode_offset = st.episode_offset + 1 ∧
      (regularEpisodeStep env total st).2.1 = false ∧
      (regularEpisodeStep env total st).1.seasonMalId = some m := by
  simp [regularEpisodeStep, hm, hz, hex]

theorem regularEpisodeStep_advance (env : EpEnv) (total : Int) (st : SState) (m nid : Nat)
    (hm : st.seasonMalId = some m) (hz : m ≠ 0)
    (hex : exhausted st = true)
    (hw : env.walker m (total - (st.episode_offset + 1) + 1) = some nid) (hn : nid ≠ 0) :
    (regularEpisodeStep env total st).1.episode_offset = 1 ∧
      (regularEpisodeStep env total st).1.seasonMalId = some nid ∧
      (regularEpisodeStep env total st).2.1 = true := by
  simp [regularEpisodeStep, hm, hz, hex, hw, hn]

/-- C1: in regular-mode episode resolution each episode increments the
running offset by 1; the Relation Graph Walker is invoked if and only if
the active identifier's known (present and nonzero) total episode count
would be exceeded by the incremented offset; a successful advance resets
the offset to 1; with `episodeCount = 12` and 12 episodes, all twelve
resolve against identifier 1 at offsets 1..12 with no walk; with 13
episodes, episode 13 triggers exactly one walker call and resolves at
offset 1 of the successor 2. -/
theorem c1_offset_arithmetic :
    (∀ (env : EpEnv) (total : Int) (st : SState),
        (regularEpisodeStep env total st).2.1 = true ↔
          ((∃ m, st.seasonMalId = some m ∧ m ≠ 0) ∧
            ∃ e, st.mal_eps = some e ∧ e ≠ 0 ∧ e < st.episode_offset + 1)) ∧
      (∀ (env : EpEnv) (total : Int) (st : SState) (m : Nat),
        st.seasonMalId = some m → m ≠ 0 → exhausted st = false →
          (regularEpisodeStep env total st).1.episode_offset = st.episode_offset + 1 ∧
            (regularEpisodeStep env total st).2.1 = false) ∧
      (∀ (env : EpEnv) (total : Int) (st : SState) (m nid : Nat),
        st.seasonMalId = some m → m ≠ 0 → exhausted st = true →
          env.walker m (total - (st.episode_offset + 1) + 1) = some nid → nid ≠ 0 →
            (regularEpisodeStep env total st).1.episode_offset = 1 ∧
              (regularEpisodeStep env total st).1.seasonMalId = some nid) ∧
      runRegular envC1 12 st0 12 =
        (⟨some 1, some 12, 12, some "u1/"⟩,
          (List.range 12).map (fun k => (false, EpOut.mapped 1 ("u1/" ++ toString (k + 1))))) ∧
      runRegular envC1 13 st0 13 =
        (⟨some 2, some 12, 1, some "u2/"⟩,
          ((List.range 12).map (fun k => (false, EpOut.mapped 1 ("u1/" ++ toString (k + 1))))) ++
            [(true, EpOut.mapped 2 "u2/1")]) := by
  refine ⟨?_, ?_, ?_, by decide, by decide⟩
  · intro env total st
    rw [regularEpisodeStep_flag, Bool.and_eq_true, truthyNat_iff, exhausted_iff]
  · intro env total st m hm hz hex
    obtain ⟨h1, h2, _⟩ := regularEpisodeStep_no_walk env total st m hm hz hex
    exact ⟨h1, h2⟩
  · intro env total st m nid hm hz hex hw hn
    obtain ⟨h1, h2, _⟩ := regularEpisodeStep_advance env total st m nid hm hz hex hw hn
    exact ⟨h1, h2⟩

/-- Witness for C1 at a concrete input: the single-step facts applied to
the state after 12 of 13 episodes, where the walker advances 1 → 2. -/
theorem c1_offset_arithmetic_witness :
    (regularEpisodeStep envC1 13 ⟨some 1, some 12, 12, some "u1/"⟩).1.episode_offset = 1 ∧
      (regularEpisodeStep envC1 13 ⟨some 1, some 12, 12, some "u1/"⟩).1.seasonMalId = some 2 :=
  c1_offset_arithmetic.2.2.1 envC1 13 ⟨some 1, some 12, 12, some "u1/"⟩ 1 2 rfl
    (by decide) (by decide) (by decide) (by decide)

/-- C6 counterexample: entering an uncached season 0 with active
identifier 5 leaves the whole resolution state — in particular the
active identifier — unchanged: it is bypassed, not reset to empty. -/
theorem c6_counterexample :
    seasonHeader seEnvT ctx0 stC6 = SeasonRes.proceed stC6 ∧
      stC6.seasonMalId = some 5 := ⟨by decide, rfl⟩

/-- C6 (amended): when traversal of a series enters an uncached season 0,
the season-level identifier logic is bypassed entirely — the active
sequential identifier is left unchanged, neither reset to empty nor
updated, and season-0 episodes are resolved independently at episode
level; at an uncached season ≥ 1 the active identifier is re-seeded by
title search only when it is empty/falsy (an active, non-exhausted
identifier passes through unchanged at seasons ≥ 2, and an empty one is
re-seeded by the title search at any season ≥ 1, not only season 1). -/
theorem c6_amended_season0_bypass :
    (∀ (env : SeEnv) (ctx : SeasonCtx) (st : SState),
        ctx.lookupEntry = none → ctx.season_num = 0 →
          seasonHeader env ctx st = SeasonRes.proceed st) ∧
      (∀ (env : SeEnv) (ctx : SeasonCtx) (st : SState) (m : Nat),
        ctx.lookupEntry = none → ctx.season_num ≠ 0 → ctx.season_num ≠ 1 →
          st.seasonMalId = some m → m ≠ 0 → seasonExhausted st = false →
            seasonHeader env ctx st = SeasonRes.proceed st) ∧
      seasonHeader seEnvS ctx2 ⟨none, none, 12, none⟩ =
        SeasonRes.proceed ⟨some 9, none, 12, none⟩ := by
  refine ⟨?_, ?_, by decide⟩
  · intro env ctx st hl hs
    simp [seasonHeader, hl, hs]
  · intro env ctx st m hl hs0 hs1 hm hz hex
    have ht2 : truthyNat (some m) = true := by simp [truthyNat, hz]
    simp [seasonHeader, hl, hs0, hs1, hm, ht2, hex]

/-- Witness for the amended C6 at a concrete input: season 0 leaves the
concrete state `stC6` untouched. -/
theorem c6_amended_season0_bypass_witness :
    seasonHeader seEnvT ctx0 stC6 = SeasonRes.proceed stC6 :=
  c6_amended_season0_bypass.1 seEnvT ctx0 stC6 rfl rfl

/-- C7: the mapper's `normalize_text` is idempotent, and it is
case/punctuation-insensitive on the given example:
`normalize_text "Foo: Bar!" = normalize_text "foo bar"`. -/
theorem c7_normalize_idempotent :
    (∀ s : String, normalize_text (normalize_text s) = normalize_text s) ∧
      normalize_text "Foo: Bar!" = normalize_text "foo bar" :=
  ⟨normalize_text_idem, by decide⟩

/-- C5 counterexample: the mapper's `normalize_text` (`mal_mapper.py`
lines 61-66) does not apply the full pipeline — it does not replace the
ampersand with "and": `normalize_text "A & B" = "a & b"`, not
`"a and b"` as the claimed pipeline requires. -/
theorem c5_counterexample :
    normalize_text "A & B" = "a & b" ∧ ("a & b" : String) ≠ "a and b" := by decide

/-- C5 (amended): only the debug scraper's `normalize_text`
(`debug/specific-anime-scrape test.py` lines 163-174) applies the full
ordered pipeline, for which `normalize("Foo ~Bar~ S01") = "foo"` and
`normalize("A & B") = "a and b"` hold; the mapper's `normalize_text`
performs only the final steps (strip `[:.!]`, trim, lower-case), so for
it `normalize("A & B") = "a & b"` and
`normalize("Foo ~Bar~ S01") = "foo ~bar~ s01"`. -/
theorem c5_amended_pipeline :
    Scrape.normalize_text "Foo ~Bar~ S01" = "foo" ∧
      Scrape.normalize_text "A & B" = "a and b" ∧
      normalize_text "A & B" = "a & b" ∧
      normalize_text "Foo ~Bar~ S01" = "foo ~bar~ s01" := by decide

end TvdbMal
